import Mathlib

/-!
# Verification of the legal-brand-grader site scraper and firm-size classifier

A shallow embedding of the core of `src/app/lib/scraper.ts` and
`src/app/lib/firmSizeDetector.ts`.  JavaScript strings are modelled as
`List Char`; the DOM queries performed through the cheerio library are
modelled by a `Dom` record holding, for each selector the source queries,
the texts/attributes that the query would return (the cheerio engine itself
is an external library, so its output is the parser's input here).  URL
parsing (WHATWG `new URL`) is likewise external: resolved URLs are carried
as structured `Url` records with the fields the source reads
(`hostname`, `pathname`, `origin`).  JS regular-expression scans in the
classifier are implemented directly as character-level scanners faithful to
the specific patterns in the source.  JS floating-point averaging of small
integer scores is modelled with `ℚ` (exact for the score ranges involved,
where doubles are exact as well).
-/

namespace LBG

/-- Convert a string literal to the `List Char` representation used for JS strings. -/
def str (s : String) : List Char := s.data

/-- The characters treated as whitespace by the JS `\s` class (ASCII subset). -/
def isWsChar (c : Char) : Bool :=
  c = ' ' || c = '\t' || c = '\n' || c = '\r' || c = Char.ofNat 11 || c = Char.ofNat 12

/-- JS `String.prototype.trim`: drop leading and trailing whitespace. -/
def trimL (s : List Char) : List Char :=
  ((s.dropWhile isWsChar).reverse.dropWhile isWsChar).reverse

/-- Worker for `collapseWs`; `fuel` (initialised to the length, one unit per
emitted character) bounds the recursion. -/
def collapseWsGo : Nat → List Char → List Char
  | 0, _ => []
  | _, [] => []
  | fuel + 1, c :: rest =>
    if isWsChar c then ' ' :: collapseWsGo fuel (rest.dropWhile isWsChar)
    else c :: collapseWsGo fuel rest

/-- JS `replace(/\s+/g, ' ')`: collapse every whitespace run to a single space. -/
def collapseWs (s : List Char) : List Char := collapseWsGo s.length s

/-- The normalisation `.text().trim().replace(/\s+/g, ' ')` used throughout the parser. -/
def normText (s : List Char) : List Char := collapseWs (trimL s)

/-- JS `hay.includes(needle)`: contiguous-substring test. -/
def containsSub (hay needle : List Char) : Bool :=
  match hay with
  | [] => needle.isEmpty
  | _ :: t => needle.isPrefixOf hay || containsSub t needle

/-- JS `toLowerCase` (ASCII). -/
def toLowerL (s : List Char) : List Char := s.map Char.toLower

/-- JS `Array.prototype.join(sep)`. -/
def joinSep (sep : List Char) : List (List Char) → List Char
  | [] => []
  | [x] => x
  | x :: xs => x ++ sep ++ joinSep sep xs

/-- Opening-brace character (used by the schema-slogan filter in the source). -/
def lbrace : Char := Char.ofNat 123

/-- Render a natural number the way JS string interpolation renders it. -/
def natStr (n : Nat) : List Char := (toString n).data

/-- A parsed absolute URL: the fields of a WHATWG `URL` object that the source
reads.  URL-string parsing itself is done by the external `URL` class, so
resolved links carry this record directly. -/
structure Url where
  hostname : List Char
  pathname : List Char
  origin : List Char
deriving Repr, DecidableEq

/-- One entry of `ParsedPage.navLinks`: visible text plus the resolved absolute URL. -/
structure NavLink where
  text : List Char
  href : Url
deriving Repr, DecidableEq

/-- One `a[href]` element as cheerio would report it: the raw `href` attribute
(if present), the element text, and the result of `new URL(href, url)` —
`none` when resolution throws. -/
structure Anchor where
  hrefAttr : Option (List Char)
  textRaw : List Char
  resolved : Option Url
deriving Repr, DecidableEq

/-- The results of the cheerio selector queries `parsePage` performs on the raw
markup. The cheerio engine is an external library; this record is its output,
one field per query in `src/app/lib/scraper.ts`. -/
structure Dom where
  /-- `$('title').first().text()` (empty string when there is no title). -/
  titleTextRaw : List Char
  /-- `$('meta[name="description"]').attr('content')`. -/
  metaDescAttr : Option (List Char)
  /-- `$('h1, h2, h3')` element texts in document order. -/
  headingTextsRaw : List (List Char)
  /-- `$('header, nav, .header, .top-bar, .site-header')` element texts. -/
  headerRegionTextsRaw : List (List Char)
  /-- The description/slogan/typed-name strings the JSON-LD walk pushes, in
  push order (JSON parsing of `ld+json` blocks is external). -/
  schemaDescs : List (List Char)
  /-- `$('body').text()` evaluated after the script/style/nav/footer/header
  strip. -/
  bodyTextRaw : List Char
  /-- `$('a[href]')` elements in document order. -/
  anchors : List Anchor
  /-- `$('img[alt]')` alt-attribute values in document order. -/
  imgAlts : List (List Char)
  /-- For each of the 11 header slogan selectors in order,
  `$full(sel).first().text()`. -/
  headerSloganCandsRaw : List (List Char)
  /-- For each of the 7 hero slogan selectors in order,
  `$full(sel).first().text()`. -/
  heroSloganCandsRaw : List (List Char)
  /-- `$full('meta[property="og:description"]').attr('content')`. -/
  ogDescAttr : Option (List Char)
deriving Repr, DecidableEq

/-- `ParsedPage` of `src/app/lib/scraper.ts`. -/
structure ParsedPage where
  url : List Char
  title : List Char
  metaDescription : List Char
  headings : List (List Char)
  bodyText : List Char
  headerText : List Char
  navLinks : List NavLink
  imageAlts : List (List Char)
  slogan : Option (List Char)
  sloganLocation : Option (List Char)
  schemaData : List (List Char)
deriving Repr, DecidableEq

/-- `ScrapedSite` of `src/app/lib/scraper.ts`. -/
structure ScrapedSite where
  homepage : Option ParsedPage
  subpages : List ParsedPage
  errors : List (List Char)
deriving Repr, DecidableEq

/-- The slogan-candidate filter at the header location:
`text && text.length > 5 && text.length < 150` on the normalised text. -/
def headerSloganOk (t : List Char) : Bool :=
  decide (t ≠ []) && decide (5 < t.length) && decide (t.length < 150)

/-- The slogan-candidate filter at the hero location:
`text && text.length > 5 && text.length < 200`. -/
def heroSloganOk (t : List Char) : Bool :=
  decide (t ≠ []) && decide (5 < t.length) && decide (t.length < 200)

/-- The slogan-candidate filter at the schema location:
`desc.length > 5 && desc.length < 120 && !desc.startsWith('{')`. -/
def schemaSloganOk (d : List Char) : Bool :=
  decide (5 < d.length) && decide (d.length < 120) &&
    !(match d with | c :: _ => c = lbrace | [] => false)

/-- The slogan-candidate filter at the meta location:
`ogDesc && ogDesc.length > 5 && ogDesc.length < 120`. -/
def metaSloganOk (t : List Char) : Bool :=
  decide (t ≠ []) && decide (5 < t.length) && decide (t.length < 120)

/-- The four-priority slogan chain of `parsePage` (header > hero > schema > meta). -/
def sloganChain (dom : Dom) : Option (List Char) × Option (List Char) :=
  match (dom.headerSloganCandsRaw.map normText).find? headerSloganOk with
  | some s => (some s, some (str "header"))
  | none =>
    match (dom.heroSloganCandsRaw.map normText).find? heroSloganOk with
    | some s => (some s, some (str "hero"))
    | none =>
      match dom.schemaDescs.find? schemaSloganOk with
      | some s => (some s, some (str "schema"))
      | none =>
        match dom.ogDescAttr with
        | some raw =>
          let o := trimL raw
          if metaSloganOk o then (some o, some (str "meta")) else (none, none)
        | none => (none, none)

/-- `parsePage` of `src/app/lib/scraper.ts`: turns the selector results for a
page's markup into a `ParsedPage`.  A total function: malformed markup shows
up only as empty selector results. -/
def parsePage (dom : Dom) (url : List Char) : ParsedPage :=
  let title := trimL dom.titleTextRaw
  let metaDescription := match dom.metaDescAttr with
    | some c => trimL c
    | none => []
  let headings := ((dom.headingTextsRaw.map normText).filter (· ≠ [])).take 30
  let headerText :=
    (trimL (collapseWs (dom.headerRegionTextsRaw.foldl
      (fun acc t => acc ++ [' '] ++ t) []))).take 500
  let schemaData := dom.schemaDescs
  let bodyText := (trimL (collapseWs dom.bodyTextRaw)).take 3000
  let navLinks :=
    (dom.anchors.filterMap (fun a =>
      match a.hrefAttr with
      | none => none
      | some h =>
        let t := normText a.textRaw
        if h = [] ∨ t = [] then none
        else match a.resolved with
          | some u => some { text := t, href := u }
          | none => none)).take 30
  let imageAlts :=
    (dom.imgAlts.filterMap (fun a =>
      let t := trimL a
      if t = [] then none else some t)).take 20
  let sl := sloganChain dom
  { url, title, metaDescription, headings, bodyText, headerText,
    navLinks, imageAlts, slogan := sl.1, sloganLocation := sl.2, schemaData }

/-- `PRIORITY_KEYWORDS` of `src/app/lib/scraper.ts`. -/
def PRIORITY_KEYWORDS : List (List Char) :=
  [str "about", str "team", str "attorneys", str "lawyers", str "people",
   str "practice", str "services", str "expertise", str "professionals",
   str "our-firm"]

/-- The skipped file extensions: `\.(pdf|jpg|png|gif|svg|css|js|zip)$` (case-insensitive). -/
def badPathExt (pathname : List Char) : Bool :=
  let pl := toLowerL pathname
  [str ".pdf", str ".jpg", str ".png", str ".gif", str ".svg",
   str ".css", str ".js", str ".zip"].any (fun ext => ext.isSuffixOf pl)

/-- `pathname.replace(/\/$/, '')`: strip one trailing slash. -/
def stripTrailingSlash (p : List Char) : List Char :=
  match p.reverse with
  | '/' :: rest => rest.reverse
  | _ => p

/-- The normalised candidate form `linkUrl.origin + linkUrl.pathname.replace(/\/$/, '')`. -/
def normalizeUrl (u : Url) : List Char := u.origin ++ stripTrailingSlash u.pathname

/-- One scored discovery candidate. -/
structure Cand where
  url : List Char
  priority : Nat
deriving Repr, DecidableEq

/-- Keyword score of a candidate: one point per `PRIORITY_KEYWORDS` member
occurring in the lowercased `pathname + ' ' + text`. -/
def candPriority (u : Url) (text : List Char) : Nat :=
  let pathAndText := toLowerL (u.pathname ++ [' '] ++ text)
  (PRIORITY_KEYWORDS.filter (fun k => containsSub pathAndText k)).length

/-- The candidate-collection loop of `discoverSubpages`: filter to
same-hostname, non-homepage-root, non-file links, deduplicate by normalised
form, keep positive-priority candidates. -/
def collectCands (base : Url) : List NavLink → List (List Char) → List Cand
  | [], _ => []
  | l :: ls, seen =>
    if l.href.hostname ≠ base.hostname then collectCands base ls seen
    else if l.href.pathname = str "/" ∨ l.href.pathname = [] then
      collectCands base ls seen
    else if badPathExt l.href.pathname then collectCands base ls seen
    else if normalizeUrl l.href ∈ seen then collectCands base ls seen
    else if 0 < candPriority l.href l.text then
      { url := normalizeUrl l.href, priority := candPriority l.href l.text } ::
        collectCands base ls (normalizeUrl l.href :: seen)
    else collectCands base ls (normalizeUrl l.href :: seen)

/-- Stable insertion of a candidate into a priority-descending list (the
element goes after all candidates with priority ≥ its own). -/
def insertDesc (c : Cand) : List Cand → List Cand
  | [] => [c]
  | d :: ds => if d.priority < c.priority then c :: d :: ds else d :: insertDesc c ds

/-- Stable sort by priority descending — extensionally the JS stable
`candidates.sort((a, b) => b.priority - a.priority)`. -/
def sortDesc (l : List Cand) : List Cand := l.foldr insertDesc []

/-- `discoverSubpages` of `src/app/lib/scraper.ts`.  `base` is the parse of
the `baseUrl` string argument. -/
def discoverSubpages (homepage : ParsedPage) (base : Url) : List (List Char) :=
  let candidates := collectCands base homepage.navLinks []
  ((sortDesc candidates).take 3).map (·.url)

/-- `formatPageSection` of `src/app/lib/scraper.ts`. -/
def formatPageSection (page : ParsedPage) (label : List Char) : List Char :=
  let parts : List (List Char) := [str "=== " ++ label ++ str " ==="]
  let parts := parts ++ [str "URL: " ++ page.url]
  let parts := if page.title ≠ [] then parts ++ [str "Title: " ++ page.title] else parts
  let parts := if page.metaDescription ≠ [] then
    parts ++ [str "Meta: " ++ page.metaDescription] else parts
  let parts := match page.slogan, page.sloganLocation with
    | some s, some loc =>
      parts ++ [str "Slogan/Tagline: \"" ++ s ++ str "\" (found in: " ++ loc ++ str ")"]
    | some s, none =>
      parts ++ [str "Slogan/Tagline: \"" ++ s ++ str "\" (found in: null)"]
    | none, _ => parts
  let parts := if page.schemaData ≠ [] then
    parts ++ [str "Schema/Structured Data: " ++ joinSep (str " | ") page.schemaData]
    else parts
  let parts := if page.headerText ≠ [] then
    parts ++ [str "Header/Nav Text: " ++ page.headerText] else parts
  let parts := if page.headings ≠ [] then
    parts ++ [str "Headings: " ++ joinSep (str " | ") page.headings] else parts
  let parts := if page.bodyText ≠ [] then
    parts ++ [str "Content: " ++ page.bodyText] else parts
  let parts := if page.imageAlts ≠ [] then
    parts ++ [str "Image Alts: " ++ joinSep (str ", ") page.imageAlts] else parts
  let parts := if page.navLinks ≠ [] then
    parts ++ [str "Nav Links: " ++ joinSep (str ", ") ((page.navLinks.take 15).map (·.text))]
    else parts
  joinSep (str "\n") parts

/-- The fixed truncation marker `'\n[... content truncated ...]'`. -/
def truncationMarker : List Char := str "\n[... content truncated ...]"

/-- Subpage section labels in discovery order. -/
def subpageLabels : List (List Char) :=
  [str "ABOUT PAGE", str "TEAM/PEOPLE PAGE", str "PRACTICE AREAS PAGE"]

/-- Label of subpage `i`: the fixed label, else `SUBPAGE i+1`. -/
def subpageLabel (i : Nat) : List Char :=
  match subpageLabels.get? i with
  | some l => l
  | none => str "SUBPAGE " ++ natStr (i + 1)

/-- `buildContentSummary` of `src/app/lib/scraper.ts`: absent homepage yields
`null`; otherwise labelled sections joined and truncated to the 12,000-char
budget with the marker appended. -/
def buildContentSummary (site : ScrapedSite) : Option (List Char) :=
  match site.homepage with
  | none => none
  | some hp =>
    let sections := formatPageSection hp (str "HOMEPAGE") ::
      site.subpages.enum.map (fun ip => formatPageSection ip.2 (subpageLabel ip.1))
    let summary := joinSep (str "\n\n") sections
    if 12000 < summary.length then some (summary.take 12000 ++ truncationMarker)
    else some summary

/-- `scrapeSite` of `src/app/lib/scraper.ts`, with the two network effects
passed in as oracles: `homeFetch` is the outcome of `fetchPage(url)` (the
selector results of the fetched markup, or the thrown error message), and
`subFetch` maps each discovered subpage URL to its fetch outcome.  `base` is
the parse of `url`, and `urlStr` its string form. -/
def scrapeSite (homeFetch : Except (List Char) Dom)
    (subFetch : List Char → Except (List Char) Dom)
    (urlStr : List Char) (base : Url) : ScrapedSite :=
  match homeFetch with
  | .error msg => { homepage := none, subpages := [],
                    errors := [str "Homepage fetch failed: " ++ msg] }
  | .ok dom =>
    let homepage := parsePage dom urlStr
    let subpageUrls := discoverSubpages homepage base
    let results := subpageUrls.map (fun su => (subFetch su).map (fun d => parsePage d su))
    let subpages := results.filterMap (fun r =>
      match r with | .ok p => some p | .error _ => none)
    let errors := results.filterMap (fun r =>
      match r with
      | .ok _ => none
      | .error e => some (str "Subpage fetch failed: " ++ e))
    { homepage := some homepage, subpages, errors }

/-! ## Firm-size classifier (`src/app/lib/firmSizeDetector.ts`) -/

/-- `FirmTier` of `src/app/lib/firmSizeDetector.ts`. -/
inductive FirmTier
  | boutique
  | midsize
  | large
  | biglaw
deriving Repr, DecidableEq

/-- `FirmSizeResult` of `src/app/lib/firmSizeDetector.ts`. -/
structure FirmSizeResult where
  tier : FirmTier
  signals : List (List Char)
  isOutlier : Bool
  estimatedHeadcount : Option Nat
deriving Repr, DecidableEq

/-- `KNOWN_BIGLAW_NAMES` (60 entries). -/
def KNOWN_BIGLAW_NAMES : List (List Char) :=
  [str "skadden", str "cravath", str "kirkland", str "latham",
   str "sullivan & cromwell", str "sullivan cromwell", str "wachtell",
   str "davis polk", str "simpson thacher", str "paul weiss",
   str "cleary gottlieb", str "weil gotshal", str "gibson dunn",
   str "jones day", str "sidley austin", str "morgan lewis",
   str "white & case", str "white case", str "hogan lovells",
   str "baker mckenzie", str "baker & mckenzie", str "norton rose",
   str "clifford chance", str "allen & overy", str "allen overy",
   str "linklaters", str "freshfields", str "herbert smith", str "dentons",
   str "dla piper", str "greenberg traurig", str "holland & knight",
   str "holland knight", str "king & spalding", str "king spalding",
   str "mayer brown", str "milbank", str "proskauer", str "ropes & gray",
   str "ropes gray", str "debevoise", str "willkie farr",
   str "quinn emanuel", str "covington", str "cooley",
   str "goodwin procter", str "goodwin", str "orrick", str "shearman",
   str "arnold & porter", str "arnold porter", str "akin gump",
   str "morrison foerster", str "mofo", str "winston & strawn",
   str "winston strawn", str "dechert", str "reed smith",
   str "squire patton", str "pillsbury", str "katten muchin"]

/-- `KNOWN_MEGA_FIRMS`. -/
def KNOWN_MEGA_FIRMS : List (List Char) :=
  [str "morgan & morgan", str "morgan and morgan", str "morganandmorgan",
   str "littler mendelson", str "littler", str "jackson lewis",
   str "ogletree deakins", str "fisher phillips", str "seyfarth shaw",
   str "seyfarth", str "baker donelson", str "polsinelli",
   str "husch blackwell", str "foley & lardner", str "foley lardner",
   str "mcguirewoods", str "bryan cave", str "thompson hine",
   str "faegre drinker"]

/-- `PRESTIGE_TERMS`. -/
def PRESTIGE_TERMS : List (List Char) :=
  [str "am law", str "amlaw", str "am law 100", str "am law 200",
   str "vault", str "chambers", str "legal 500", str "nlj 500",
   str "global 100", str "magic circle", str "white shoe"]

/-- `name.replace(/\s+/g, '')` (URL form of a BigLaw name). -/
def stripWs (s : List Char) : List Char := s.filter (fun c => !isWsChar c)

/-- `name.replace(/[&\s]+/g, '')` (URL form of a mega-firm name). -/
def stripAmpWs (s : List Char) : List Char :=
  s.filter (fun c => !(c = '&' || isWsChar c))

/-- `getAllText` of `src/app/lib/firmSizeDetector.ts`. -/
def getAllText (site : ScrapedSite) : List Char :=
  let pageParts (p : ParsedPage) : List (List Char) :=
    [p.title, p.metaDescription, p.bodyText, joinSep [' '] p.headings,
     joinSep [' '] (p.navLinks.map (·.text))]
  let parts := (match site.homepage with | some h => pageParts h | none => []) ++
    (site.subpages.map pageParts).flatten
  joinSep [' '] parts

/-! ### Regex scanners

The count regexes of the source, implemented character-by-character.  Each
scanner reproduces successive `exec` calls of the corresponding global regex:
at each position it attempts a match (greedy sub-matches are exact here
because no backtracking into the number/whitespace parts can succeed — the
suffix always begins with a letter class), emits the captured number, and
resumes after the match; a failed attempt advances one character.  `fuel`
(initialised to the text length) bounds the recursion. -/

def isDigitCh (c : Char) : Bool := '0' ≤ c && c ≤ '9'

/-- `parseInt(capture.replace(/,/g, ''), 10)` for a digits-and-commas capture. -/
def parseNatDigits (ds : List Char) : Nat :=
  ds.foldl (fun a c => 10 * a + (c.toNat - 48)) 0

/-- First keyword of `kws` that is a prefix of `cs` (regex alternation order). -/
def findKwPrefix (kws : List (List Char)) (cs : List Char) : Option (List Char) :=
  kws.find? (fun k => k.isPrefixOf cs)

/-- Person-count nouns of the first count pattern. -/
def countKeywords1 : List (List Char) :=
  [str "attorneys", str "lawyers", str "professionals", str "associates",
   str "partners"]

/-- Quantifier prefixes of the second count pattern. -/
def countPrefixes2 : List (List Char) :=
  [str "more than", str "over", str "approximately", str "nearly"]

/-- Person-count nouns of the second count pattern (a strict subset). -/
def countKeywords2 : List (List Char) :=
  [str "attorneys", str "lawyers", str "professionals"]

/-- `/(\d[\d,]*)\s*(?:\+\s*)?(?:attorneys|lawyers|professionals|associates|partners)/g`. -/
def scanCount1Go : Nat → List Char → List Nat
  | 0, _ => []
  | _, [] => []
  | fuel + 1, c :: rest =>
    if isDigitCh c then
      let isNumCh := fun x => isDigitCh x || x = ','
      let numPart := (c :: rest).takeWhile isNumCh
      let afterNum := (c :: rest).dropWhile isNumCh
      let afterWs := afterNum.dropWhile isWsChar
      let afterPlus := match afterWs with
        | '+' :: r => r.dropWhile isWsChar
        | _ => afterWs
      match findKwPrefix countKeywords1 afterPlus with
      | some k =>
        parseNatDigits (numPart.filter isDigitCh) ::
          scanCount1Go fuel (afterPlus.drop k.length)
      | none => scanCount1Go fuel rest
    else scanCount1Go fuel rest

/-- `/(?:more than|over|approximately|nearly)\s*(\d[\d,]*)\s*(?:attorneys|lawyers|professionals)/g`. -/
def scanCount2Go : Nat → List Char → List Nat
  | 0, _ => []
  | _, [] => []
  | fuel + 1, c :: rest =>
    match findKwPrefix countPrefixes2 (c :: rest) with
    | some p =>
      let afterP := (c :: rest).drop p.length
      let afterWs := afterP.dropWhile isWsChar
      match afterWs with
      | d :: _ =>
        if isDigitCh d then
          let isNumCh := fun x => isDigitCh x || x = ','
          let numPart := afterWs.takeWhile isNumCh
          let afterNum := afterWs.dropWhile isNumCh
          let afterWs2 := afterNum.dropWhile isWsChar
          match findKwPrefix countKeywords2 afterWs2 with
          | some k =>
            parseNatDigits (numPart.filter isDigitCh) ::
              scanCount2Go fuel (afterWs2.drop k.length)
          | none => scanCount2Go fuel rest
        else scanCount2Go fuel rest
      | [] => scanCount2Go fuel rest
    | none => scanCount2Go fuel rest

/-- All numbers captured by the two attorney-count patterns, in scan order. -/
def scanAttorneyNums (text : List Char) : List Nat :=
  scanCount1Go text.length text ++ scanCount2Go text.length text

/-- Place nouns of the first office pattern. -/
def officeKeywords1 : List (List Char) :=
  [str "offices", str "locations", str "cities"]

/-- `/(\d+)\s*(?:offices|locations|cities)/g`. -/
def scanOffice1Go : Nat → List Char → List Nat
  | 0, _ => []
  | _, [] => []
  | fuel + 1, c :: rest =>
    if isDigitCh c then
      let numPart := (c :: rest).takeWhile isDigitCh
      let afterNum := (c :: rest).dropWhile isDigitCh
      let afterWs := afterNum.dropWhile isWsChar
      match findKwPrefix officeKeywords1 afterWs with
      | some k => parseNatDigits numPart :: scanOffice1Go fuel (afterWs.drop k.length)
      | none => scanOffice1Go fuel rest
    else scanOffice1Go fuel rest

/-- Consume one or more whitespace characters (`\s+`). -/
def wsPlus (cs : List Char) : Option (List Char) :=
  match cs with
  | c :: rest => if isWsChar c then some (rest.dropWhile isWsChar) else none
  | [] => none

/-- Consume `offices?\s+in`, `locations?\s+in` or `across` (the head
alternation of the second office pattern); `none` when it cannot match here. -/
def office2Head (cs : List Char) : Option (List Char) :=
  if (str "office").isPrefixOf cs then
    let r := cs.drop 6
    let r := match r with | 's' :: t => t | _ => r
    match wsPlus r with
    | some r2 => if (str "in").isPrefixOf r2 then some (r2.drop 2) else none
    | none => none
  else if (str "location").isPrefixOf cs then
    let r := cs.drop 8
    let r := match r with | 's' :: t => t | _ => r
    match wsPlus r with
    | some r2 => if (str "in").isPrefixOf r2 then some (r2.drop 2) else none
    | none => none
  else if (str "across").isPrefixOf cs then some (cs.drop 6)
  else none

/-- `/(?:offices?\s+in|locations?\s+in|across)\s+(\d+)/g`. -/
def scanOffice2Go : Nat → List Char → List Nat
  | 0, _ => []
  | _, [] => []
  | fuel + 1, c :: rest =>
    match office2Head (c :: rest) with
    | some r =>
      match wsPlus r with
      | some r2 =>
        match r2 with
        | d :: _ =>
          if isDigitCh d then
            let numPart := r2.takeWhile isDigitCh
            let afterNum := r2.dropWhile isDigitCh
            parseNatDigits numPart :: scanOffice2Go fuel afterNum
          else scanOffice2Go fuel rest
        | [] => scanOffice2Go fuel rest
      | none => scanOffice2Go fuel rest
    | none => scanOffice2Go fuel rest

/-- All numbers captured by the two office-count patterns, in scan order. -/
def scanOfficeNums (text : List Char) : List Nat :=
  scanOffice1Go text.length text ++ scanOffice2Go text.length text

/-! ### Detectors -/

def isUpperCh (c : Char) : Bool := 'A' ≤ c && c ≤ 'Z'

def isLowerCh (c : Char) : Bool := 'a' ≤ c && c ≤ 'z'

/-- Worker for `splitWs`; each step consumes at least one character, so
`fuel` initialised to the length suffices. -/
def splitWsGo : Nat → List Char → List (List Char)
  | 0, _ => []
  | fuel + 1, cs =>
    match cs.dropWhile isWsChar with
    | [] => []
    | c :: rest =>
      ((c :: rest).takeWhile (fun x => !isWsChar x)) ::
        splitWsGo fuel (rest.dropWhile (fun x => !isWsChar x))

/-- Split on whitespace runs, dropping empty pieces. -/
def splitWs (cs : List Char) : List (List Char) := splitWsGo cs.length cs

/-- `[A-Z][a-z]+` as a whole token. -/
def isCapWord (t : List Char) : Bool :=
  match t with
  | c :: rest => isUpperCh c && !rest.isEmpty && rest.all isLowerCh
  | [] => false

/-- `[A-Z]\.?` as a whole token. -/
def isInitialTok (t : List Char) : Bool :=
  match t with
  | [c] => isUpperCh c
  | [c, d] => isUpperCh c && d = '.'
  | _ => false

/-- `^[A-Z][a-z]+(?:\s+[A-Z]\.?)?\s+[A-Z][a-z]+(?:\s+[A-Z][a-z]+)?$` applied to
`heading.trim()` — the person-name shape used by the headcount fallback. -/
def isNameShaped (h : List Char) : Bool :=
  match splitWs (trimL h) with
  | [a, b] => isCapWord a && isCapWord b
  | [a, b, c] =>
    isCapWord a && ((isInitialTok b && isCapWord c) || (isCapWord b && isCapWord c))
  | [a, b, c, d] => isCapWord a && isInitialTok b && isCapWord c && isCapWord d
  | _ => false

/-- The team/people URL test guarding the headcount fallback. -/
def teamishUrl (url : List Char) : Bool :=
  let u := toLowerL url
  containsSub u (str "team") || containsSub u (str "attorney") ||
    containsSub u (str "people") || containsSub u (str "lawyer") ||
    containsSub u (str "professional")

/-- Count of name-shaped headings on a page. -/
def pageNameCount (p : ParsedPage) : Nat :=
  (p.headings.filter (fun h => isNameShaped h)).length

/-- `detectAttorneyCount` of `src/app/lib/firmSizeDetector.ts`. -/
def detectAttorneyCount (text : List Char) (site : ScrapedSite) : Option Nat :=
  let maxCount := (scanAttorneyNums text).foldl
    (fun mc n => if mc < n ∧ n < 50000 then n else mc) 0
  if 0 < maxCount then some maxCount
  else
    let maxCount := site.subpages.foldl (fun mc p =>
      if teamishUrl p.url then
        let nameCount := pageNameCount p
        if mc < nameCount then nameCount else mc
      else mc) maxCount
    if 0 < maxCount then some maxCount else none

/-- `detectOfficeCount` of `src/app/lib/firmSizeDetector.ts`. -/
def detectOfficeCount (text : List Char) : Option Nat :=
  let maxCount := (scanOfficeNums text).foldl
    (fun mc n => if mc < n ∧ n < 500 then n else mc) 0
  if 0 < maxCount then some maxCount else none

/-- `/practice|service|expertise|area|specialt/i` on a lowercased pathname. -/
def practicePathRe (p : List Char) : Bool :=
  let pl := toLowerL p
  containsSub pl (str "practice") || containsSub pl (str "service") ||
    containsSub pl (str "expertise") || containsSub pl (str "area") ||
    containsSub pl (str "specialt")

/-- `detectPracticeAreaCount` of `src/app/lib/firmSizeDetector.ts`.  (`new
URL(l.href)` on a stored resolved link never throws, so the `catch` branch is
unreachable here.) -/
def detectPracticeAreaCount (site : ScrapedSite) : Nat :=
  let allPages := (match site.homepage with | some h => [h] | none => []) ++
    site.subpages
  allPages.foldl (fun count page =>
    let pageUrl := toLowerL page.url
    let count := if containsSub pageUrl (str "practice") ||
        containsSub pageUrl (str "service") || containsSub pageUrl (str "expertise")
      then max count page.headings.length else count
    let practiceLinks := page.navLinks.filter (fun l => practicePathRe l.href.pathname)
    max count practiceLinks.length) 0

/-- `detectPrestigeMentions` of `src/app/lib/firmSizeDetector.ts`. -/
def detectPrestigeMentions (text : List Char) : List (List Char) :=
  PRESTIGE_TERMS.filter (fun t => containsSub text t)

/-! ### Classifier pipeline -/

/-- The mega-firm match of Signal 0 (first matching list entry, if any). -/
def megaMatch (firmName allTextLower firmUrl : List Char) : Option (List Char) :=
  KNOWN_MEGA_FIRMS.find? (fun n =>
    containsSub firmName n || containsSub allTextLower n ||
      containsSub firmUrl (stripAmpWs n))

/-- The BigLaw-name match of Signal 1 (first matching list entry, if any). -/
def biglawMatch (firmName allTextLower firmUrl : List Char) : Option (List Char) :=
  KNOWN_BIGLAW_NAMES.find? (fun n =>
    containsSub firmName n || containsSub allTextLower n ||
      containsSub firmUrl (stripWs n))

/-- Ordinal bucket of an attorney count. -/
def attorneyScore (c : Nat) : Nat :=
  if 250 < c then 4 else if 75 < c then 3 else if 15 < c then 2 else 1

/-- Ordinal bucket of an office count. -/
def officeScore (c : Nat) : Nat :=
  if 10 < c then 4 else if 4 < c then 3 else if 1 < c then 2 else 1

/-- Ordinal bucket of a practice-area count. -/
def practiceScore (c : Nat) : Nat :=
  if 30 < c then 4 else if 15 < c then 3 else if 5 < c then 2 else 1

/-- Ordinal bucket of the prestige hits. -/
def prestigeScore (hits : List (List Char)) : Nat :=
  if 3 ≤ hits.length then 4 else 3

/-- `scores.reduce((a, b) => a + b, 0) / scores.length` as an exact rational
(doubles are exact for these small integer sums and these cut points).
`mkRat` is kernel-computable; `avgScore_eq_div` below shows it is the
ordinary rational division. -/
def avgScore (scores : List Nat) : ℚ :=
  mkRat (scores.foldl (· + ·) 0 : Nat) scores.length

/-- The fixed cut points mapping an average to a tier (3.5 = 7/2 etc. are
exactly representable). -/
def tierOfAvg (avg : ℚ) : FirmTier :=
  if mkRat 7 2 ≤ avg then .biglaw
  else if mkRat 5 2 ≤ avg then .large
  else if mkRat 3 2 ≤ avg then .midsize
  else .boutique

/-- The ordinal scores of the fired detectors, in pipeline order — the
`scores` array of `detectFirmSize` just before averaging. -/
def detectorScores (site : ScrapedSite) : List Nat :=
  let allTextLower := toLowerL (getAllText site)
  let scoresA := match detectAttorneyCount allTextLower site with
    | some c => [attorneyScore c]
    | none => []
  let scoresB := match detectOfficeCount allTextLower with
    | some c => scoresA ++ [officeScore c]
    | none => scoresA
  let practiceCount := detectPracticeAreaCount site
  let scoresC := if 0 < practiceCount then scoresB ++ [practiceScore practiceCount]
    else scoresB
  let hits := detectPrestigeMentions allTextLower
  if hits ≠ [] then scoresC ++ [prestigeScore hits] else scoresC

def megaSignal (n : List Char) : List Char :=
  str "Known mega firm (500+ attorneys): \"" ++ n ++ str "\""

def biglawSignal (n : List Char) : List Char :=
  str "Known BigLaw firm name match: \"" ++ n ++ str "\""

def attorneySignal (c : Nat) : List Char :=
  str "Detected ~" ++ natStr c ++ str " attorneys/professionals"

def outlierSignal : List Char := str "500+ attorneys — outlier grading applies"

def officeSignal (c : Nat) : List Char :=
  str "Detected ~" ++ natStr c ++ str " office locations"

def practiceSignal (c : Nat) : List Char :=
  str "Detected ~" ++ natStr c ++ str " practice areas"

def prestigeSignal (hits : List (List Char)) : List Char :=
  str "Prestige mentions: " ++ joinSep (str ", ") hits

def noSignalsNote : List Char :=
  str "No strong size signals detected — defaulting to boutique"

/-- `site.homepage?.title?.toLowerCase() || ''`. -/
def siteFirmName (site : ScrapedSite) : List Char :=
  toLowerL (match site.homepage with | some h => h.title | none => [])

/-- `site.homepage?.url?.toLowerCase() || ''`. -/
def siteFirmUrl (site : ScrapedSite) : List Char :=
  toLowerL (match site.homepage with | some h => h.url | none => [])

/-- `detectFirmSize` of `src/app/lib/firmSizeDetector.ts`. -/
def detectFirmSize (site : ScrapedSite) : FirmSizeResult :=
  let allTextLower := toLowerL (getAllText site)
  let firmName := siteFirmName site
  let firmUrl := siteFirmUrl site
  let signals0 := match megaMatch firmName allTextLower firmUrl with
    | some n => [megaSignal n]
    | none => []
  let isOutlier0 := (megaMatch firmName allTextLower firmUrl).isSome
  match biglawMatch firmName allTextLower firmUrl with
  | some n =>
    { tier := .biglaw, signals := signals0 ++ [biglawSignal n],
      isOutlier := true, estimatedHeadcount := none }
  | none =>
    let attorneyCount := detectAttorneyCount allTextLower site
    let signalsA := match attorneyCount with
      | some c => signals0 ++ [attorneySignal c] ++
          (if 500 ≤ c then [outlierSignal] else [])
      | none => signals0
    let isOutlierA := isOutlier0 ||
      (match attorneyCount with | some c => decide (500 ≤ c) | none => false)
    let signalsB := match detectOfficeCount allTextLower with
      | some c => signalsA ++ [officeSignal c]
      | none => signalsA
    let practiceCount := detectPracticeAreaCount site
    let signalsC := if 0 < practiceCount then signalsB ++ [practiceSignal practiceCount]
      else signalsB
    let hits := detectPrestigeMentions allTextLower
    let signalsD := if hits ≠ [] then signalsC ++ [prestigeSignal hits] else signalsC
    let scores := detectorScores site
    if scores = [] then
      { tier := .boutique, signals := signalsD ++ [noSignalsNote],
        isOutlier := isOutlierA, estimatedHeadcount := attorneyCount }
    else
      { tier := tierOfAvg (avgScore scores), signals := signalsD,
        isOutlier := isOutlierA, estimatedHeadcount := attorneyCount }

/-! ## Concrete inputs used by the witnesses and counterexamples -/

/-- The selector results of markup that yields nothing: every query empty. -/
def emptyDom : Dom :=
  { titleTextRaw := [], metaDescAttr := none, headingTextsRaw := [],
    headerRegionTextsRaw := [], schemaDescs := [], bodyTextRaw := [],
    anchors := [], imgAlts := [], headerSloganCandsRaw := [],
    heroSloganCandsRaw := [], ogDescAttr := none }

/-- A page with every field defaulted, for building small example sites. -/
def blankPage (url : List Char) : ParsedPage :=
  { url, title := [], metaDescription := [], headings := [], bodyText := [],
    headerText := [], navLinks := [], imageAlts := [], slogan := none,
    sloganLocation := none, schemaData := [] }

/-- A homepage whose text fires exactly the attorney-count detector (score 4)
and the office-count detector (score 2) and matches no known firm name. -/
def exPage : ParsedPage :=
  { blankPage (str "https://examplefirm.test/") with
    title := str "Example Firm",
    bodyText := str "the firm has 300 attorneys and 2 offices" }

def exSite : ScrapedSite := { homepage := some exPage, subpages := [], errors := [] }

/-- A homepage whose title names a known BigLaw firm while its body text
claims a tiny headcount. -/
def skadPage : ParsedPage :=
  { blankPage (str "https://example.test/") with
    title := str "Skadden, Arps, Slate, Meagher & Flom LLP",
    bodyText := str "a boutique practice of 5 attorneys in 1 office" }

def skadSite : ScrapedSite := { homepage := some skadPage, subpages := [], errors := [] }

/-- A 13,000-character body text. -/
def c3body : List Char := 'a' :: List.replicate 12999 'a'

/-- A homepage whose single rendered section exceeds the 12,000-character
summary budget. -/
def c3page : ParsedPage := { blankPage (str "u") with bodyText := c3body }

def c3site : ScrapedSite := { homepage := some c3page, subpages := [], errors := [] }

/-- A 160-character slogan candidate (no whitespace). -/
def t160 : List Char := List.replicate 160 'x'

/-- Markup whose only slogan candidate sits at the header location. -/
def domHeaderOnly (t : List Char) : Dom := { emptyDom with headerSloganCandsRaw := [t] }

/-- Markup whose only slogan candidate sits at the hero location. -/
def domHeroOnly (t : List Char) : Dom := { emptyDom with heroSloganCandsRaw := [t] }

/-- Markup whose only slogan candidate is a structured-data description. -/
def domSchemaOnly (t : List Char) : Dom := { emptyDom with schemaDescs := [t] }

/-- Markup whose only slogan candidate is the `og:description` metadata. -/
def domMetaOnly (t : List Char) : Dom := { emptyDom with ogDescAttr := some t }

/-- A base URL whose homepage lives at a non-root path. -/
def c5base : Url :=
  { hostname := str "x.com", pathname := str "/our-firm",
    origin := str "https://x.com" }

/-- A homepage (at `c5base`) whose only navigation link points back to the
homepage path itself. -/
def c5page : ParsedPage :=
  { blankPage (str "https://x.com/our-firm") with
    navLinks := [{ text := str "team", href := c5base }] }

/-- A small-firm homepage for exercising the headcount bounds. -/
def c10page : ParsedPage :=
  { blankPage (str "https://smallshop.test/") with
    title := str "Small Shop",
    bodyText := str "our team of 20 lawyers serves the region" }

def c10site : ScrapedSite := { homepage := some c10page, subpages := [], errors := [] }

/-! ## Theorems -/

/-- `avgScore` is the ordinary rational division `sum / length`. -/
theorem avgScore_eq_div (scores : List Nat) :
    avgScore scores = ((scores.foldl (· + ·) 0 : Nat) : ℚ) / (scores.length : ℚ) := by
  simp [avgScore, Rat.mkRat_eq_div]

/-- C6: for every input markup (selector results) and source URL, the
`ParsedPage` produced by `parsePage` satisfies all size caps: at most 30
headings, 30 nav links, 20 image alts, 3000 body-text characters and 500
header-text characters. -/
theorem parsePage_size_caps (dom : Dom) (url : List Char) :
    (parsePage dom url).headings.length ≤ 30 ∧
    (parsePage dom url).navLinks.length ≤ 30 ∧
    (parsePage dom url).imageAlts.length ≤ 20 ∧
    (parsePage dom url).bodyText.length ≤ 3000 ∧
    (parsePage dom url).headerText.length ≤ 500 := by
  refine ⟨?_, ?_, ?_, ?_, ?_⟩ <;> simp [parsePage, List.length_take]

/-- C7: if the homepage fetch fails, the orchestrator returns the bundle
with no homepage, no subpages and exactly one error entry, and
`buildContentSummary` on that bundle returns `none`. -/
theorem scrapeSite_homepage_failure (subFetch : List Char → Except (List Char) Dom)
    (urlStr msg : List Char) (base : Url) :
    scrapeSite (Except.error msg) subFetch urlStr base =
      { homepage := none, subpages := [],
        errors := [str "Homepage fetch failed: " ++ msg] } ∧
    (scrapeSite (Except.error msg) subFetch urlStr base).errors.length = 1 ∧
    buildContentSummary (scrapeSite (Except.error msg) subFetch urlStr base) = none :=
  ⟨rfl, rfl, rfl⟩

/-- C8: the parser is a total function — for every input markup it returns a
`ParsedPage` whose `url` field is the source URL, and markup yielding nothing
produces a page with every other field empty or absent. -/
theorem parsePage_total_defaults :
    (∀ (dom : Dom) (url : List Char), (parsePage dom url).url = url) ∧
    (∀ url : List Char, parsePage emptyDom url = blankPage url) :=
  ⟨fun _ _ => rfl, fun _ => rfl⟩

/-- C2: whenever the homepage title, the gathered lowercased site text or
the homepage URL contains a known BigLaw name (the URL in its
whitespace-stripped form), `detectFirmSize` short-circuits to tier `biglaw`
with the outlier flag set and no headcount estimate, regardless of any other
signals in the text. -/
theorem detectFirmSize_biglaw_short_circuit (site : ScrapedSite)
    (h : ∃ n ∈ KNOWN_BIGLAW_NAMES,
      containsSub (siteFirmName site) n = true ∨
      containsSub (toLowerL (getAllText site)) n = true ∨
      containsSub (siteFirmUrl site) (stripWs n) = true) :
    (detectFirmSize site).tier = FirmTier.biglaw ∧
    (detectFirmSize site).isOutlier = true ∧
    (detectFirmSize site).estimatedHeadcount = none := by
  have hsome : (biglawMatch (siteFirmName site) (toLowerL (getAllText site))
      (siteFirmUrl site)).isSome := by
    rw [biglawMatch, List.find?_isSome]
    obtain ⟨n, hn, hc⟩ := h
    exact ⟨n, hn, by rcases hc with h1 | h1 | h1 <;> simp [h1]⟩
  unfold detectFirmSize
  cases hb : biglawMatch (siteFirmName site) (toLowerL (getAllText site))
      (siteFirmUrl site) with
  | none => rw [hb] at hsome; simp at hsome
  | some n => simp [hb]

/-- Witness for C2: a homepage titled after Skadden whose body claims only 5
attorneys is still classified `biglaw` with the outlier flag. -/
theorem detectFirmSize_biglaw_short_circuit_witness :
    (detectFirmSize skadSite).tier = FirmTier.biglaw ∧
    (detectFirmSize skadSite).isOutlier = true ∧
    (detectFirmSize skadSite).estimatedHeadcount = none :=
  detectFirmSize_biglaw_short_circuit skadSite
    ⟨str "skadden", by decide, Or.inl (by decide)⟩

/-- Counterexample to C3 as stated: a bundle whose single rendered section
has 13,033 characters yields a summary of 12,028 characters — the 12,000
character budget plus the 28-character truncation marker — exceeding the
claimed 12,000-character bound. -/
theorem buildContentSummary_exceeds_budget :
    ∃ s, buildContentSummary c3site = some s ∧ s.length = 12028 ∧ 12000 < s.length := by
  have hsect : formatPageSection c3page (str "HOMEPAGE") =
      str "=== HOMEPAGE ===" ++ str "\n" ++
        (str "URL: u" ++ str "\n" ++ (str "Content: " ++ c3body)) := rfl
  have hlen : (formatPageSection c3page (str "HOMEPAGE")).length = 13033 := by
    rw [hsect]
    have h1 : (str "=== HOMEPAGE ===").length = 16 := by decide
    have h2 : (str "\n").length = 1 := by decide
    have h3 : (str "URL: u").length = 6 := by decide
    have h4 : (str "Content: ").length = 9 := by decide
    have h5 : c3body.length = 13000 := by
      rw [show c3body = 'a' :: List.replicate 12999 'a' from rfl]
      rw [List.length_cons, List.length_replicate]
    simp only [List.length_append, h1, h2, h3, h4, h5]
  have hred : buildContentSummary c3site =
      (if 12000 < (formatPageSection c3page (str "HOMEPAGE")).length
       then some ((formatPageSection c3page (str "HOMEPAGE")).take 12000 ++ truncationMarker)
       else some (formatPageSection c3page (str "HOMEPAGE"))) := rfl
  have hmark : truncationMarker.length = 28 := by decide
  refine ⟨(formatPageSection c3page (str "HOMEPAGE")).take 12000 ++ truncationMarker, ?_, ?_, ?_⟩
  · rw [hred, if_pos (by rw [hlen]; norm_num)]
  · rw [List.length_append, List.length_take, hlen, hmark]
    omega
  · rw [List.length_append, List.length_take, hlen, hmark]
    omega

/-- C3 amended: for every bundle with a present homepage the summary is
present and at most 12,028 characters long — the 12,000-character budget
plus, when truncation occurs, the fixed 28-character marker. -/
theorem buildContentSummary_length_bound (hp : ParsedPage) (subs : List ParsedPage)
    (errs : List (List Char)) :
    ∃ s, buildContentSummary { homepage := some hp, subpages := subs, errors := errs }
        = some s ∧ s.length ≤ 12028 := by
  have hmark : truncationMarker.length = 28 := by decide
  unfold buildContentSummary
  dsimp only
  split
  · next hgt =>
    refine ⟨_, rfl, ?_⟩
    rw [List.length_append, List.length_take, hmark]
    omega
  · next hle =>
    refine ⟨_, rfl, ?_⟩
    omega

/-- Counterexample to C1 as stated: a site firing exactly the attorney-count
detector (score 4) and the office-count detector (score 2), with no known
organisation-name match, is classified `large` — not `midsize` — because the
average 3.0 clears the ≥ 2.5 `large` cut point. -/
theorem detectorScores_avg3_not_midsize :
    detectorScores exSite = [4, 2] ∧
    biglawMatch (siteFirmName exSite) (toLowerL (getAllText exSite))
      (siteFirmUrl exSite) = none ∧
    megaMatch (siteFirmName exSite) (toLowerL (getAllText exSite))
      (siteFirmUrl exSite) = none ∧
    (detectFirmSize exSite).tier = FirmTier.large ∧
    (detectFirmSize exSite).tier ≠ FirmTier.midsize := by
  decide

/-- C1 amended: a site firing exactly two detectors with ordinal scores 4 and
2 (and no BigLaw name match) averages to 3.0 and is classified `large` (the
≥ 2.5 cut point), not `midsize`. -/
theorem detectFirmSize_avg3_yields_large (site : ScrapedSite)
    (hb : biglawMatch (siteFirmName site) (toLowerL (getAllText site))
      (siteFirmUrl site) = none)
    (hs : detectorScores site = [4, 2]) :
    avgScore (detectorScores site) = 3 ∧
    (detectFirmSize site).tier = FirmTier.large := by
  constructor
  · rw [hs]; decide
  · unfold detectFirmSize
    simp only [hb, hs]
    rw [if_neg (by decide : ¬([4, 2] : List Nat) = [])]
    show tierOfAvg (avgScore [4, 2]) = FirmTier.large
    decide

/-- Witness for the amended C1 at the concrete two-detector site. -/
theorem detectFirmSize_avg3_yields_large_witness :
    avgScore (detectorScores exSite) = 3 ∧
    (detectFirmSize exSite).tier = FirmTier.large :=
  detectFirmSize_avg3_yields_large exSite (by decide) (by decide)

theorem headerSloganOk_iff (t : List Char) :
    headerSloganOk t = true ↔ 5 < t.length ∧ t.length < 150 := by
  simp only [headerSloganOk, Bool.and_eq_true, decide_eq_true_eq]
  constructor
  · rintro ⟨⟨_, h1⟩, h2⟩
    exact ⟨h1, h2⟩
  · rintro ⟨h1, h2⟩
    refine ⟨⟨?_, h1⟩, h2⟩
    intro hnil
    rw [hnil] at h1
    simp at h1

theorem heroSloganOk_iff (t : List Char) :
    heroSloganOk t = true ↔ 5 < t.length ∧ t.length < 200 := by
  simp only [heroSloganOk, Bool.and_eq_true, decide_eq_true_eq]
  constructor
  · rintro ⟨⟨_, h1⟩, h2⟩
    exact ⟨h1, h2⟩
  · rintro ⟨h1, h2⟩
    refine ⟨⟨?_, h1⟩, h2⟩
    intro hnil
    rw [hnil] at h1
    simp at h1

theorem metaSloganOk_iff (t : List Char) :
    metaSloganOk t = true ↔ 5 < t.length ∧ t.length < 120 := by
  simp only [metaSloganOk, Bool.and_eq_true, decide_eq_true_eq]
  constructor
  · rintro ⟨⟨_, h1⟩, h2⟩
    exact ⟨h1, h2⟩
  · rintro ⟨h1, h2⟩
    refine ⟨⟨?_, h1⟩, h2⟩
    intro hnil
    rw [hnil] at h1
    simp at h1

theorem schemaSloganOk_iff (t : List Char) :
    schemaSloganOk t = true ↔
      5 < t.length ∧ t.length < 120 ∧ t.head? ≠ some lbrace := by
  cases t with
  | nil => simp [schemaSloganOk]
  | cons c rest =>
    simp only [schemaSloganOk, Bool.and_eq_true, decide_eq_true_eq,
      Bool.not_eq_eq_eq_not, Bool.not_true, List.head?_cons, ne_eq,
      Option.some.injEq, and_assoc]
    constructor
    · rintro ⟨h1, h2, h3⟩
      exact ⟨h1, h2, by simpa using h3⟩
    · rintro ⟨h1, h2, h3⟩
      exact ⟨h1, h2, by simpa using h3⟩

set_option maxRecDepth 8000 in
/-- Counterexample to C4 as stated: a 160-character header-location
candidate lies inside the claimed 5–200 window yet is rejected — the parser
extracts no slogan at all from this markup. -/
theorem slogan_header_window_cex :
    (normText t160).length = 160 ∧ 5 ≤ 160 ∧ 160 ≤ 200 ∧
    (parsePage (domHeaderOnly t160) (str "u")).slogan = none ∧
    (parsePage (domHeaderOnly t160) (str "u")).sloganLocation = none := by
  decide

/-- C4 amended: the length windows are per-location — a candidate is
accepted as the slogan exactly when its normalised length is strictly
between 5 and 150 at the header location, strictly between 5 and 200 at the
hero location, strictly between 5 and 120 (and not starting with an opening
brace) at the schema location, and strictly between 5 and 120 (after
trimming) at the meta location. -/
theorem parsePage_slogan_windows (t u : List Char) :
    ((parsePage (domHeaderOnly t) u).slogan =
      if 5 < (normText t).length ∧ (normText t).length < 150
      then some (normText t) else none) ∧
    ((parsePage (domHeroOnly t) u).slogan =
      if 5 < (normText t).length ∧ (normText t).length < 200
      then some (normText t) else none) ∧
    ((parsePage (domSchemaOnly t) u).slogan =
      if 5 < t.length ∧ t.length < 120 ∧ t.head? ≠ some lbrace
      then some t else none) ∧
    ((parsePage (domMetaOnly t) u).slogan =
      if 5 < (trimL t).length ∧ (trimL t).length < 120
      then some (trimL t) else none) := by
  refine ⟨?_, ?_, ?_, ?_⟩
  · cases h : headerSloganOk (normText t) with
    | true =>
      rw [if_pos ((headerSloganOk_iff _).mp h)]
      simp [parsePage, sloganChain, domHeaderOnly, emptyDom, List.find?, h]
    | false =>
      rw [if_neg (fun hc => by simp [(headerSloganOk_iff _).mpr hc] at h)]
      simp [parsePage, sloganChain, domHeaderOnly, emptyDom, List.find?, h]
  · cases h : heroSloganOk (normText t) with
    | true =>
      rw [if_pos ((heroSloganOk_iff _).mp h)]
      simp [parsePage, sloganChain, domHeroOnly, emptyDom, List.find?, h]
    | false =>
      rw [if_neg (fun hc => by simp [(heroSloganOk_iff _).mpr hc] at h)]
      simp [parsePage, sloganChain, domHeroOnly, emptyDom, List.find?, h]
  · cases h : schemaSloganOk t with
    | true =>
      rw [if_pos ((schemaSloganOk_iff _).mp h)]
      simp [parsePage, sloganChain, domSchemaOnly, emptyDom, List.find?, h]
    | false =>
      rw [if_neg (fun hc => by simp [(schemaSloganOk_iff _).mpr hc] at h)]
      simp [parsePage, sloganChain, domSchemaOnly, emptyDom, List.find?, h]
  · cases h : metaSloganOk (trimL t) with
    | true =>
      rw [if_pos ((metaSloganOk_iff _).mp h)]
      simp [parsePage, sloganChain, domMetaOnly, emptyDom, List.find?, h]
    | false =>
      rw [if_neg (fun hc => by simp [(metaSloganOk_iff _).mpr hc] at h)]
      simp [parsePage, sloganChain, domMetaOnly, emptyDom, List.find?, h]

theorem mem_insertDesc (c d : Cand) (l : List Cand) :
    c ∈ insertDesc d l ↔ c = d ∨ c ∈ l := by
  induction l with
  | nil => simp [insertDesc]
  | cons e es ih =>
    simp only [insertDesc]
    split
    · simp [or_comm, or_assoc, or_left_comm]
    · simp only [List.mem_cons, ih]
      tauto

theorem mem_sortDesc (c : Cand) (l : List Cand) :
    c ∈ sortDesc l ↔ c ∈ l := by
  induction l with
  | nil => simp [sortDesc]
  | cons e es ih =>
    show c ∈ insertDesc e (sortDesc es) ↔ _
    rw [mem_insertDesc, ih, List.mem_cons]

theorem mem_collectCands (base : Url) (ls : List NavLink) (seen : List (List Char))
    (c : Cand) (h : c ∈ collectCands base ls seen) :
    ∃ l ∈ ls, l.href.hostname = base.hostname ∧
      l.href.pathname ≠ str "/" ∧ l.href.pathname ≠ [] ∧
      badPathExt l.href.pathname = false ∧ c.url = normalizeUrl l.href := by
  induction ls generalizing seen with
  | nil => simp [collectCands] at h
  | cons l ls ih =>
    rw [collectCands] at h
    split at h
    · obtain ⟨m, hm, hp⟩ := ih _ h
      exact ⟨m, List.mem_cons_of_mem _ hm, hp⟩
    · split at h
      · obtain ⟨m, hm, hp⟩ := ih _ h
        exact ⟨m, List.mem_cons_of_mem _ hm, hp⟩
      · split at h
        · obtain ⟨m, hm, hp⟩ := ih _ h
          exact ⟨m, List.mem_cons_of_mem _ hm, hp⟩
        · split at h
          · obtain ⟨m, hm, hp⟩ := ih _ h
            exact ⟨m, List.mem_cons_of_mem _ hm, hp⟩
          · split at h
            · rw [List.mem_cons] at h
              rcases h with rfl | h
              · next hhost hroot hext _ _ =>
                push_neg at hroot
                exact ⟨l, List.mem_cons_self l ls,
                  by simpa using hhost, hroot.1, hroot.2,
                  by simpa using hext, rfl⟩
              · obtain ⟨m, hm, hp⟩ := ih _ h
                exact ⟨m, List.mem_cons_of_mem _ hm, hp⟩
            · obtain ⟨m, hm, hp⟩ := ih _ h
              exact ⟨m, List.mem_cons_of_mem _ hm, hp⟩

/-- Counterexample to C5 as stated: with the homepage at the non-root path
`/our-firm`, a navigation link pointing back to the homepage itself is
selected — the discoverer only excludes the root path, not the homepage
path in general. -/
theorem discoverSubpages_selects_homepage_path :
    discoverSubpages c5page c5base = [c5base.origin ++ c5base.pathname] ∧
    c5page.url = c5base.origin ++ c5base.pathname := by
  decide

/-- C5 amended: every discovered URL comes from a homepage navigation link
with the same hostname as the base URL, a pathname that is neither the root
path `/` nor empty, and no excluded file extension; the homepage's own path
is excluded only when it is the root. -/
theorem discoverSubpages_link_filters (hp : ParsedPage) (base : Url) (u : List Char)
    (hu : u ∈ discoverSubpages hp base) :
    ∃ l ∈ hp.navLinks, l.href.hostname = base.hostname ∧
      l.href.pathname ≠ str "/" ∧ l.href.pathname ≠ [] ∧
      badPathExt l.href.pathname = false ∧ u = normalizeUrl l.href := by
  unfold discoverSubpages at hu
  simp only [List.mem_map] at hu
  obtain ⟨c, hc, rfl⟩ := hu
  have hc2 : c ∈ sortDesc (collectCands base hp.navLinks []) :=
    List.take_subset _ _ hc
  have hc3 : c ∈ collectCands base hp.navLinks [] := (mem_sortDesc _ _).mp hc2
  exact mem_collectCands base hp.navLinks [] c hc3

/-- Witness for the amended C5 at the concrete homepage-link site. -/
theorem discoverSubpages_link_filters_witness :
    ∃ l ∈ c5page.navLinks, l.href.hostname = c5base.hostname ∧
      l.href.pathname ≠ str "/" ∧ l.href.pathname ≠ [] ∧
      badPathExt l.href.pathname = false ∧
      (str "https://x.com/our-firm") = normalizeUrl l.href :=
  discoverSubpages_link_filters c5page c5base (str "https://x.com/our-firm")
    (by decide)

/-- C9: every return path of `detectFirmSize` — the BigLaw short-circuit,
the no-detector default and the averaging path — produces at least one
human-readable signal string. -/
theorem detectFirmSize_signals_nonempty (site : ScrapedSite) :
    (detectFirmSize site).signals ≠ [] := by
  unfold detectFirmSize
  cases hb : biglawMatch (siteFirmName site) (toLowerL (getAllText site))
      (siteFirmUrl site) with
  | some n => simp [hb]
  | none =>
    simp only [hb]
    split
    · next hempty =>
      simp
    · next hnonempty =>
      rw [detectorScores] at hnonempty
      simp only at hnonempty ⊢
      cases ha : detectAttorneyCount (toLowerL (getAllText site)) site <;>
      cases ho : detectOfficeCount (toLowerL (getAllText site)) <;>
      by_cases hpr : 0 < detectPracticeAreaCount site <;>
      by_cases hpm : detectPrestigeMentions (toLowerL (getAllText site)) = [] <;>
        simp_all

/-- The first scan loop of `detectAttorneyCount` keeps its running maximum
strictly below the 50,000 sanity ceiling. -/
theorem foldl_capguard_lt (cap : Nat) (L : List Nat) (init : Nat) (h : init < cap) :
    L.foldl (fun mc n => if mc < n ∧ n < cap then n else mc) init < cap := by
  induction L generalizing init with
  | nil => simpa
  | cons n ns ih =>
    simp only [List.foldl_cons]
    split
    · next hc => exact ih _ hc.2
    · exact ih _ h

/-- The team-page fallback loop of `detectAttorneyCount` is bounded by the
per-page heading cap. -/
theorem foldl_teamcount_le (pages : List ParsedPage) (init : Nat)
    (hcap : ∀ p ∈ pages, p.headings.length ≤ 30) (h : init ≤ 30) :
    pages.foldl (fun mc p =>
      if teamishUrl p.url then
        let nameCount := pageNameCount p
        if mc < nameCount then nameCount else mc
      else mc) init ≤ 30 := by
  induction pages generalizing init with
  | nil => simpa
  | cons p ps ih =>
    simp only [List.foldl_cons]
    refine ih _ (fun q hq => hcap q (List.mem_cons_of_mem _ hq)) ?_
    have hname : pageNameCount p ≤ 30 :=
      le_trans (List.length_filter_le _ _) (hcap p (List.mem_cons_self _ _))
    split
    · split
      · exact hname
      · exact h
    · exact h

/-- A present `detectAttorneyCount` result is at least 1 and below 50,000
(given the parser's 30-heading cap on each subpage). -/
theorem detectAttorneyCount_bounds (text : List Char) (site : ScrapedSite)
    (hcap : ∀ p ∈ site.subpages, p.headings.length ≤ 30) (n : Nat)
    (h : detectAttorneyCount text site = some n) : 1 ≤ n ∧ n < 50000 := by
  rw [detectAttorneyCount] at h
  simp only at h
  split at h
  · next hpos =>
    rw [Option.some.injEq] at h
    subst h
    exact ⟨hpos, foldl_capguard_lt 50000 _ 0 (by norm_num)⟩
  · next hneg =>
    split at h
    · next hpos2 =>
      rw [Option.some.injEq] at h
      subst h
      refine ⟨hpos2, ?_⟩
      have hle : (site.subpages.foldl (fun mc p =>
          if teamishUrl p.url then
            if mc < pageNameCount p then pageNameCount p else mc
          else mc) ((scanAttorneyNums text).foldl
            (fun mc n => if mc < n ∧ n < 50000 then n else mc) 0)) ≤ 30 := by
        have h0 : ((scanAttorneyNums text).foldl
            (fun mc n => if mc < n ∧ n < 50000 then n else mc) 0) ≤ 30 := by
          omega
        exact foldl_teamcount_le _ _ hcap h0
      omega
    · exact absurd h (by simp)

/-- C10: whenever `detectFirmSize` reports a headcount estimate, it is an
integer between 1 and 49,999 — explicit counts at or above the 50,000
ceiling are discarded, and the name-shaped-heading fallback is bounded by
the parser's 30-heading cap on each subpage. -/
theorem detectFirmSize_headcount_bounds (site : ScrapedSite)
    (hcap : ∀ p ∈ site.subpages, p.headings.length ≤ 30) (n : Nat)
    (h : (detectFirmSize site).estimatedHeadcount = some n) :
    1 ≤ n ∧ n < 50000 := by
  unfold detectFirmSize at h
  cases hb : biglawMatch (siteFirmName site) (toLowerL (getAllText site))
      (siteFirmUrl site) with
  | some m => simp [hb] at h
  | none =>
    simp only [hb] at h
    split at h <;>
      simp only at h <;>
      exact detectAttorneyCount_bounds _ site hcap n h

/-- Witness for C10: the small-firm homepage reporting 20 lawyers yields the
estimate 20, inside the bounds. -/
theorem detectFirmSize_headcount_bounds_witness :
    (detectFirmSize c10site).estimatedHeadcount = some 20 ∧ 1 ≤ 20 ∧ 20 < 50000 :=
  ⟨by decide,
   detectFirmSize_headcount_bounds c10site
     (by intro p hp; simp [c10site] at hp) 20 (by decide)⟩

end LBG
